import Mathlib

/-!
Shallow embedding of the Developer-Portal template store
(`TemplateStoreService` in `template-store.service.ts` together with the
entity shapes of `templates.model.ts`).

The state is a record of six ordered collections.  Every remove operation of
the service is a pure function `TemplateState → String → TemplateState`,
transcribed filter-by-filter from the source.  Create operations append a
caller-built entity; the service's `createId` (random/time based id
generation) is modelled by the id field of the supplied entity.  The
persistence adapter (`persistState` / `loadState` / `safeParseState`) is
modelled over an explicit raw-storage value: the JSON layer is abstracted to
a record whose six fields are optional, mirroring the `?? []` defaulting in
`safeParseState`.
-/

inductive FieldType where
  | shortText
  | longText
  | number
  | date
deriving DecidableEq

structure PageTemplateField where
  id : String
  name : String
  type : FieldType
  description : Option String
deriving DecidableEq

structure PageTemplate where
  id : String
  name : String
  description : Option String
  fields : List PageTemplateField
deriving DecidableEq

structure BookTemplate where
  id : String
  name : String
  description : Option String
  pageTemplateIds : List String
deriving DecidableEq

structure CatalogTemplate where
  id : String
  name : String
  description : Option String
  bookTemplateIds : List String
deriving DecidableEq

structure PageInstance where
  id : String
  templateId : String
  title : String
  values : List (String × String)
deriving DecidableEq

structure BookInstance where
  id : String
  templateId : String
  title : String
  pageInstanceIds : List String
deriving DecidableEq

structure CatalogInstance where
  id : String
  templateId : String
  title : String
  bookInstanceIds : List String
deriving DecidableEq

structure TemplateState where
  pageTemplates : List PageTemplate
  bookTemplates : List BookTemplate
  catalogTemplates : List CatalogTemplate
  pages : List PageInstance
  books : List BookInstance
  catalogs : List CatalogInstance
deriving DecidableEq

/-- The `defaultState` constant of the service: six empty collections. -/
def defaultState : TemplateState :=
  { pageTemplates := []
    bookTemplates := []
    catalogTemplates := []
    pages := []
    books := []
    catalogs := [] }

/-- `removePageTemplate` (service lines 77–127), transcribed step by step:
`pagesToRemove`, `remainingPages`, `updatedBooks`, `updatedBookTemplates`,
`validBookTemplateIds`, `booksAfterTemplateCleanup`, `removedBookIds`,
`cleanedCatalogs`, `cleanedCatalogTemplates`, final state replacement. -/
def removePageTemplate (current : TemplateState) (templateId : String) :
    TemplateState :=
  let pagesToRemove : List String :=
    (current.pages.filter (fun page => decide (page.templateId = templateId))).map
      (fun page => page.id)
  let remainingPages :=
    current.pages.filter (fun page => decide (page.templateId ≠ templateId))
  let updatedBooks :=
    (current.books.map (fun book =>
        { book with
          pageInstanceIds :=
            book.pageInstanceIds.filter (fun i => decide (i ∉ pagesToRemove)) })).filter
      (fun book => decide (book.pageInstanceIds.length > 0))
  let updatedBookTemplates :=
    (current.bookTemplates.map (fun bookTemplate =>
        { bookTemplate with
          pageTemplateIds :=
            bookTemplate.pageTemplateIds.filter (fun i => decide (i ≠ templateId)) })).filter
      (fun template => decide (template.pageTemplateIds.length > 0))
  let validBookTemplateIds : List String :=
    updatedBookTemplates.map (fun template => template.id)
  let booksAfterTemplateCleanup :=
    updatedBooks.filter (fun book => decide (book.templateId ∈ validBookTemplateIds))
  let removedBookIds : List String :=
    (current.books.map (fun book => book.id)).filter
      (fun i => ! booksAfterTemplateCleanup.any (fun book => book.id == i))
  let cleanedCatalogs :=
    (current.catalogs.map (fun catalog =>
        { catalog with
          bookInstanceIds :=
            catalog.bookInstanceIds.filter (fun i => decide (i ∉ removedBookIds)) })).filter
      (fun catalog => decide (catalog.bookInstanceIds.length > 0))
  let cleanedCatalogTemplates :=
    (current.catalogTemplates.map (fun catalogTemplate =>
        { catalogTemplate with
          bookTemplateIds :=
            catalogTemplate.bookTemplateIds.filter
              (fun i => decide (i ∈ validBookTemplateIds)) })).filter
      (fun template => decide (template.bookTemplateIds.length > 0))
  { current with
    pageTemplates :=
      current.pageTemplates.filter (fun template => decide (template.id ≠ templateId))
    pages := remainingPages
    bookTemplates := updatedBookTemplates
    books := booksAfterTemplateCleanup
    catalogTemplates := cleanedCatalogTemplates
    catalogs := cleanedCatalogs }

/-- `removeBookTemplate` (service lines 144–164): `booksToRemove`,
Shape-B `updatedCatalogs`, `updatedCatalogTemplates`, final replacement. -/
def removeBookTemplate (current : TemplateState) (templateId : String) :
    TemplateState :=
  let booksToRemove : List String :=
    (current.books.filter (fun book => decide (book.templateId = templateId))).map
      (fun book => book.id)
  let updatedCatalogs :=
    current.catalogs.filter
      (fun catalog => decide (∀ i ∈ catalog.bookInstanceIds, i ∉ booksToRemove))
  let updatedCatalogTemplates :=
    (current.catalogTemplates.map (fun template =>
        { template with
          bookTemplateIds :=
            template.bookTemplateIds.filter (fun i => decide (i ≠ templateId)) })).filter
      (fun template => decide (template.bookTemplateIds.length > 0))
  { current with
    bookTemplates :=
      current.bookTemplates.filter (fun template => decide (template.id ≠ templateId))
    books := current.books.filter (fun book => decide (book.templateId ≠ templateId))
    catalogs := updatedCatalogs
    catalogTemplates := updatedCatalogTemplates }

/-- `removeCatalogTemplate` (service lines 181–188). -/
def removeCatalogTemplate (current : TemplateState) (templateId : String) :
    TemplateState :=
  { current with
    catalogTemplates :=
      current.catalogTemplates.filter (fun template => decide (template.id ≠ templateId))
    catalogs :=
      current.catalogs.filter (fun catalog => decide (catalog.templateId ≠ templateId)) }

/-- `removePageInstance` (service lines 204–228): `updatedBooks`,
`removedBookIds`, `updatedCatalogs`, final replacement. -/
def removePageInstance (current : TemplateState) (pageId : String) :
    TemplateState :=
  let updatedBooks :=
    (current.books.map (fun book =>
        { book with
          pageInstanceIds :=
            book.pageInstanceIds.filter (fun i => decide (i ≠ pageId)) })).filter
      (fun book => decide (book.pageInstanceIds.length > 0))
  let removedBookIds : List String :=
    (current.books.map (fun book => book.id)).filter
      (fun i => ! updatedBooks.any (fun book => book.id == i))
  let updatedCatalogs :=
    (current.catalogs.map (fun catalog =>
        { catalog with
          bookInstanceIds :=
            catalog.bookInstanceIds.filter (fun i => decide (i ∉ removedBookIds)) })).filter
      (fun catalog => decide (catalog.bookInstanceIds.length > 0))
  { current with
    pages := current.pages.filter (fun page => decide (page.id ≠ pageId))
    books := updatedBooks
    catalogs := updatedCatalogs }

/-- `removeBookInstance` (service lines 245–257). -/
def removeBookInstance (current : TemplateState) (bookId : String) :
    TemplateState :=
  { current with
    books := current.books.filter (fun book => decide (book.id ≠ bookId))
    catalogs :=
      (current.catalogs.map (fun catalog =>
          { catalog with
            bookInstanceIds :=
              catalog.bookInstanceIds.filter (fun i => decide (i ≠ bookId)) })).filter
        (fun catalog => decide (catalog.bookInstanceIds.length > 0)) }

/-- `removeCatalogInstance` (service lines 274–280). -/
def removeCatalogInstance (current : TemplateState) (catalogId : String) :
    TemplateState :=
  { current with
    catalogs :=
      current.catalogs.filter (fun catalog => decide (catalog.id ≠ catalogId)) }

/-- `createPageTemplate`: appends the built template (with its fresh id) to
the end of `pageTemplates`. -/
def createPageTemplate (current : TemplateState) (template : PageTemplate) :
    TemplateState :=
  { current with pageTemplates := current.pageTemplates ++ [template] }

/-- `createBookTemplate`: appends to `bookTemplates`. -/
def createBookTemplate (current : TemplateState) (template : BookTemplate) :
    TemplateState :=
  { current with bookTemplates := current.bookTemplates ++ [template] }

/-- `createCatalogTemplate`: appends to `catalogTemplates`. -/
def createCatalogTemplate (current : TemplateState) (template : CatalogTemplate) :
    TemplateState :=
  { current with catalogTemplates := current.catalogTemplates ++ [template] }

/-- `createPageInstance`: appends to `pages`. -/
def createPageInstance (current : TemplateState) (inst : PageInstance) :
    TemplateState :=
  { current with pages := current.pages ++ [inst] }

/-- `createBookInstance`: appends to `books`. -/
def createBookInstance (current : TemplateState) (inst : BookInstance) :
    TemplateState :=
  { current with books := current.books ++ [inst] }

/-- `createCatalogInstance`: appends to `catalogs`. -/
def createCatalogInstance (current : TemplateState) (inst : CatalogInstance) :
    TemplateState :=
  { current with catalogs := current.catalogs ++ [inst] }

/-- `resetAll` (service lines 282–291). -/
def resetAll (_current : TemplateState) : TemplateState :=
  defaultState

/-- One store operation, as invoked by a caller.  For create operations the
payload carries the id that the service's `createId` would have drawn. -/
inductive Op where
  | createPageTemplate (template : PageTemplate)
  | createBookTemplate (template : BookTemplate)
  | createCatalogTemplate (template : CatalogTemplate)
  | createPageInstance (inst : PageInstance)
  | createBookInstance (inst : BookInstance)
  | createCatalogInstance (inst : CatalogInstance)
  | removePageTemplate (templateId : String)
  | removeBookTemplate (templateId : String)
  | removeCatalogTemplate (templateId : String)
  | removePageInstance (pageId : String)
  | removeBookInstance (bookId : String)
  | removeCatalogInstance (catalogId : String)
deriving DecidableEq

/-- Dispatch one operation against the current state. -/
def applyOp (s : TemplateState) : Op → TemplateState
  | .createPageTemplate t => createPageTemplate s t
  | .createBookTemplate t => createBookTemplate s t
  | .createCatalogTemplate t => createCatalogTemplate s t
  | .createPageInstance e => createPageInstance s e
  | .createBookInstance e => createBookInstance s e
  | .createCatalogInstance e => createCatalogInstance s e
  | .removePageTemplate i => removePageTemplate s i
  | .removeBookTemplate i => removeBookTemplate s i
  | .removeCatalogTemplate i => removeCatalogTemplate s i
  | .removePageInstance i => removePageInstance s i
  | .removeBookInstance i => removeBookInstance s i
  | .removeCatalogInstance i => removeCatalogInstance s i

/-- Run a sequence of operations from a starting state. -/
def execOps (s : TemplateState) (ops : List Op) : TemplateState :=
  ops.foldl applyOp s

/-- Invariant 1 of the spec, for pages: every `PageInstance.templateId` is
the id of some `PageTemplate`. -/
def Inv1Pages (s : TemplateState) : Prop :=
  ∀ p ∈ s.pages, ∃ t ∈ s.pageTemplates, t.id = p.templateId

/-- Invariant 1 for book instances. -/
def Inv1Books (s : TemplateState) : Prop :=
  ∀ b ∈ s.books, ∃ t ∈ s.bookTemplates, t.id = b.templateId

/-- Invariant 1 for catalog instances. -/
def Inv1Catalogs (s : TemplateState) : Prop :=
  ∀ c ∈ s.catalogs, ∃ t ∈ s.catalogTemplates, t.id = c.templateId

/-- Invariant 2: every id in a `BookInstance.pageInstanceIds` is the id of a
`PageInstance` in the pages collection. -/
def Inv2 (s : TemplateState) : Prop :=
  ∀ b ∈ s.books, ∀ r ∈ b.pageInstanceIds, ∃ p ∈ s.pages, p.id = r

/-- Invariant 3: every id in a `CatalogInstance.bookInstanceIds` is the id
of a `BookInstance` in the books collection. -/
def Inv3 (s : TemplateState) : Prop :=
  ∀ c ∈ s.catalogs, ∀ r ∈ c.bookInstanceIds, ∃ b ∈ s.books, b.id = r

/-- Invariant 4 for book templates: no dangling page-template reference. -/
def Inv4BookTemplates (s : TemplateState) : Prop :=
  ∀ t ∈ s.bookTemplates, ∀ r ∈ t.pageTemplateIds, ∃ pt ∈ s.pageTemplates, pt.id = r

/-- Invariant 4 for catalog templates: no dangling book-template reference. -/
def Inv4CatalogTemplates (s : TemplateState) : Prop :=
  ∀ t ∈ s.catalogTemplates, ∀ r ∈ t.bookTemplateIds, ∃ bt ∈ s.bookTemplates, bt.id = r

/-- Invariants 1–4 of the spec, as a predicate on a published snapshot. -/
def Invariants (s : TemplateState) : Prop :=
  Inv1Pages s ∧ Inv1Books s ∧ Inv1Catalogs s ∧ Inv2 s ∧ Inv3 s ∧
    Inv4BookTemplates s ∧ Inv4CatalogTemplates s

instance : DecidablePred Invariants := fun s => by
  unfold Invariants Inv1Pages Inv1Books Inv1Catalogs Inv2 Inv3
    Inv4BookTemplates Inv4CatalogTemplates
  infer_instance

/-- Auxiliary invariant: every catalog instance conforms to every catalog
template bearing its template id — each referenced book's template id is
listed in that catalog template's `bookTemplateIds`. -/
def CatalogConformance (s : TemplateState) : Prop :=
  ∀ c ∈ s.catalogs, ∀ ct ∈ s.catalogTemplates, ct.id = c.templateId →
    ∀ r ∈ c.bookInstanceIds, ∀ b ∈ s.books, b.id = r →
      b.templateId ∈ ct.bookTemplateIds

/-- Auxiliary invariant: no catalog instance has an empty book list. -/
def CatalogsNonempty (s : TemplateState) : Prop :=
  ∀ c ∈ s.catalogs, c.bookInstanceIds ≠ []

/-- The inductive well-formedness maintained across well-formed runs. -/
def WF (s : TemplateState) : Prop :=
  Invariants s ∧ CatalogConformance s ∧ CatalogsNonempty s

instance : DecidablePred WF := fun s => by
  unfold WF CatalogConformance CatalogsNonempty
  infer_instance

/-- A create operation is well-formed at a state when its caller-supplied
reference ids are drawn from the current published state (the caller trust
assumption of the spec), its id is fresh where freshness is observable, and
a catalog instance is created non-empty and conformant to its template.
Remove operations are always well-formed. -/
def GoodOp (s : TemplateState) : Op → Prop
  | .createPageTemplate _ => True
  | .createBookTemplate t =>
      ∀ r ∈ t.pageTemplateIds, ∃ pt ∈ s.pageTemplates, pt.id = r
  | .createCatalogTemplate t =>
      (∀ r ∈ t.bookTemplateIds, ∃ bt ∈ s.bookTemplates, bt.id = r) ∧
        (∀ ct ∈ s.catalogTemplates, ct.id ≠ t.id)
  | .createPageInstance e => ∃ pt ∈ s.pageTemplates, pt.id = e.templateId
  | .createBookInstance e =>
      (∃ bt ∈ s.bookTemplates, bt.id = e.templateId) ∧
        (∀ r ∈ e.pageInstanceIds, ∃ p ∈ s.pages, p.id = r) ∧
        (∀ b ∈ s.books, b.id ≠ e.id)
  | .createCatalogInstance e =>
      (∃ ct ∈ s.catalogTemplates, ct.id = e.templateId) ∧
        (∀ r ∈ e.bookInstanceIds, ∃ b ∈ s.books, b.id = r) ∧
        e.bookInstanceIds ≠ [] ∧
        (∀ ct ∈ s.catalogTemplates, ct.id = e.templateId →
          ∀ r ∈ e.bookInstanceIds, ∀ b ∈ s.books, b.id = r →
            b.templateId ∈ ct.bookTemplateIds)
  | .removePageTemplate _ => True
  | .removeBookTemplate _ => True
  | .removeCatalogTemplate _ => True
  | .removePageInstance _ => True
  | .removeBookInstance _ => True
  | .removeCatalogInstance _ => True

instance : ∀ s op, Decidable (GoodOp s op) := fun s op => by
  cases op <;> { unfold GoodOp; infer_instance }

/-- A run is well-formed when each operation is well-formed at the state it
is applied to. -/
def GoodSeq (s : TemplateState) : List Op → Prop
  | [] => True
  | op :: rest => GoodOp s op ∧ GoodSeq (applyOp s op) rest

instance : ∀ s ops, Decidable (GoodSeq s ops) := fun s ops => by
  induction ops generalizing s with
  | nil => unfold GoodSeq; infer_instance
  | cons op rest ih =>
      unfold GoodSeq
      have := ih (applyOp s op)
      infer_instance

/-- Raw content of the single storage slot as seen by `safeParseState`:
absent (`getItem` returned null), malformed (`JSON.parse` throws, or the
parsed value is not an object), or a parsed object whose six fields are
each possibly missing. -/
structure StoredState where
  pageTemplates : Option (List PageTemplate)
  bookTemplates : Option (List BookTemplate)
  catalogTemplates : Option (List CatalogTemplate)
  pages : Option (List PageInstance)
  books : Option (List BookInstance)
  catalogs : Option (List CatalogInstance)
deriving DecidableEq

inductive RawStored where
  | absent
  | malformed
  | object (parsed : StoredState)
deriving DecidableEq

/-- `safeParseState` (lines 17–39): null raw gives null; an unparseable or
non-object value gives null; an object has each missing field defaulted to
an empty list via `?? []`. -/
def safeParseState : RawStored → Option TemplateState
  | .absent => none
  | .malformed => none
  | .object parsed =>
      some
        { pageTemplates := parsed.pageTemplates.getD []
          bookTemplates := parsed.bookTemplates.getD []
          catalogTemplates := parsed.catalogTemplates.getD []
          pages := parsed.pages.getD []
          books := parsed.books.getD []
          catalogs := parsed.catalogs.getD [] }

/-- `persistState` (lines 313–323): serializes the full state as one blob
under the fixed key; a JSON serialization of the state record presents all
six fields. -/
def persistState (state : TemplateState) : RawStored :=
  .object
    { pageTemplates := some state.pageTemplates
      bookTemplates := some state.bookTemplates
      catalogTemplates := some state.catalogTemplates
      pages := some state.pages
      books := some state.books
      catalogs := some state.catalogs }

/-- `loadState` (lines 304–311): `safeParseState` of the stored blob,
falling back to the default state. -/
def loadState (raw : RawStored) : TemplateState :=
  (safeParseState raw).getD defaultState

/-- The id sequence of each collection of `t` is a subsequence of the id
sequence of the same collection of `s`. -/
def idsSublists (t s : TemplateState) : Prop :=
  (t.pageTemplates.map (fun e => e.id)).Sublist (s.pageTemplates.map (fun e => e.id)) ∧
  (t.bookTemplates.map (fun e => e.id)).Sublist (s.bookTemplates.map (fun e => e.id)) ∧
  (t.catalogTemplates.map (fun e => e.id)).Sublist (s.catalogTemplates.map (fun e => e.id)) ∧
  (t.pages.map (fun e => e.id)).Sublist (s.pages.map (fun e => e.id)) ∧
  (t.books.map (fun e => e.id)).Sublist (s.books.map (fun e => e.id)) ∧
  (t.catalogs.map (fun e => e.id)).Sublist (s.catalogs.map (fun e => e.id))

/-- Every composite template and container instance of the state carries a
non-empty reference list. -/
def AllReferenceListsNonempty (s : TemplateState) : Prop :=
  (∀ t ∈ s.bookTemplates, t.pageTemplateIds ≠ []) ∧
  (∀ t ∈ s.catalogTemplates, t.bookTemplateIds ≠ []) ∧
  (∀ b ∈ s.books, b.pageInstanceIds ≠ []) ∧
  (∀ c ∈ s.catalogs, c.bookInstanceIds ≠ [])


instance : DecidablePred AllReferenceListsNonempty := fun s => by
  unfold AllReferenceListsNonempty
  infer_instance

/-- Sample entity builders used to instantiate theorems on concrete data. -/
def samplePageTemplate (i : String) : PageTemplate :=
  { id := i, name := "n", description := none, fields := [] }

def sampleBookTemplate (i : String) (refs : List String) : BookTemplate :=
  { id := i, name := "n", description := none, pageTemplateIds := refs }

def sampleCatalogTemplate (i : String) (refs : List String) : CatalogTemplate :=
  { id := i, name := "n", description := none, bookTemplateIds := refs }

def samplePage (i t : String) : PageInstance :=
  { id := i, templateId := t, title := "t", values := [] }

def sampleBook (i t : String) (refs : List String) : BookInstance :=
  { id := i, templateId := t, title := "t", pageInstanceIds := refs }

def sampleCatalog (i t : String) (refs : List String) : CatalogInstance :=
  { id := i, templateId := t, title := "t", bookInstanceIds := refs }

/-! ### Helper lemmas -/

theorem ids_sublist_of_filter {α β : Type} (l : List α) (g : α → Bool) (idf : α → β) :
    ((l.filter g).map idf).Sublist (l.map idf) :=
  (List.filter_sublist l).map idf

theorem ids_sublist_of_map_filter {α β : Type} (l : List α) (f : α → α) (g : α → Bool)
    (idf : α → β) (h : ∀ a, idf (f a) = idf a) :
    (((l.map f).filter g).map idf).Sublist (l.map idf) := by
  have h1 : (((l.map f).filter g).map idf).Sublist ((l.map f).map idf) :=
    (List.filter_sublist _).map idf
  simpa [List.map_map, Function.comp_def, h] using h1

/-! ### Claims -/

/-- C10: for every state and id, `removeBookTemplate` leaves the `pages` and
`pageTemplates` collections of the state exactly unchanged. -/
theorem removeBookTemplate_frame_pages (s : TemplateState) (templateId : String) :
    (removeBookTemplate s templateId).pages = s.pages ∧
      (removeBookTemplate s templateId).pageTemplates = s.pageTemplates :=
  ⟨rfl, rfl⟩

/-- C6: saving any state to the storage slot and loading it back reproduces
the state: `loadState (persistState s) = s`. -/
theorem loadState_persistState (state : TemplateState) :
    loadState (persistState state) = state := rfl

/-- C7: `loadState` is total; an absent or malformed blob yields the
canonical empty state, and a parsed object has each missing field
independently defaulted to an empty list while present fields are kept. -/
theorem loadState_degrades_gracefully :
    loadState .absent = defaultState ∧ loadState .malformed = defaultState ∧
      ∀ parsed : StoredState,
        loadState (.object parsed) =
          { pageTemplates := parsed.pageTemplates.getD []
            bookTemplates := parsed.bookTemplates.getD []
            catalogTemplates := parsed.catalogTemplates.getD []
            pages := parsed.pages.getD []
            books := parsed.books.getD []
            catalogs := parsed.catalogs.getD [] } :=
  ⟨rfl, rfl, fun _ => rfl⟩

/-- C2: `removeBookTemplate s T` keeps exactly those catalog instances that
reference no book instance of template `T`, each kept verbatim (its list is
never partially filtered); every catalog instance referencing any book of
`T` is deleted in its entirety. -/
theorem removeBookTemplate_shapeB (s : TemplateState) (templateId : String)
    (c : CatalogInstance) :
    c ∈ (removeBookTemplate s templateId).catalogs ↔
      c ∈ s.catalogs ∧ ∀ r ∈ c.bookInstanceIds, ∀ b ∈ s.books, b.id = r →
        b.templateId ≠ templateId := by
  simp only [removeBookTemplate, List.mem_filter, decide_eq_true_eq, List.mem_map,
    List.mem_filter]
  constructor
  · rintro ⟨hc, hall⟩
    exact ⟨hc, fun r hr b hb hid htid =>
      hall r hr ⟨b, ⟨hb, by simp [htid]⟩, hid⟩⟩
  · rintro ⟨hc, hall⟩
    refine ⟨hc, fun r hr hmem => ?_⟩
    obtain ⟨b, ⟨hb, htid⟩, hid⟩ := hmem
    exact hall r hr b hb hid (by simpa using htid)

/-- C8: for every remove operation, state and id, the sequence of surviving
ids in each of the six collections is a subsequence of the id sequence of
that collection before the operation. -/
theorem remove_preserves_order (s : TemplateState) (x : String) :
    idsSublists (removePageTemplate s x) s ∧
    idsSublists (removeBookTemplate s x) s ∧
    idsSublists (removeCatalogTemplate s x) s ∧
    idsSublists (removePageInstance s x) s ∧
    idsSublists (removeBookInstance s x) s ∧
    idsSublists (removeCatalogInstance s x) s := by
  refine ⟨⟨?_, ?_, ?_, ?_, ?_, ?_⟩, ⟨?_, ?_, ?_, ?_, ?_, ?_⟩, ⟨?_, ?_, ?_, ?_, ?_, ?_⟩,
    ⟨?_, ?_, ?_, ?_, ?_, ?_⟩, ⟨?_, ?_, ?_, ?_, ?_, ?_⟩, ⟨?_, ?_, ?_, ?_, ?_, ?_⟩⟩ <;>
    simp only [removePageTemplate, removeBookTemplate, removeCatalogTemplate,
      removePageInstance, removeBookInstance, removeCatalogInstance] <;>
    first
      | exact List.Sublist.refl _
      | exact ids_sublist_of_filter _ _ _
      | exact ids_sublist_of_map_filter _ _ _ _ (fun a => rfl)
      | exact ((ids_sublist_of_filter _ _ _).trans
          (ids_sublist_of_map_filter _ _ _ _ (fun a => rfl)))

/-- C9: `removePageInstance` applies its drop-if-emptied filters to all
book instances and catalog instances, not only those that referenced the
removed id: no surviving book or catalog has an empty reference list, and a
book whose list was already empty is deleted even when the removed id
occurs nowhere in the state. -/
theorem removePageInstance_drops_all_emptied (s : TemplateState) (x : String) :
    (∀ b ∈ (removePageInstance s x).books, b.pageInstanceIds ≠ []) ∧
    (∀ c ∈ (removePageInstance s x).catalogs, c.bookInstanceIds ≠ []) ∧
    (∀ b ∈ s.books, b.pageInstanceIds = [] → b ∉ (removePageInstance s x).books) := by
  have hbooks : ∀ b ∈ (removePageInstance s x).books, b.pageInstanceIds ≠ [] := by
    intro b hb
    simp only [removePageInstance, List.mem_filter, decide_eq_true_eq] at hb
    exact List.length_pos.mp hb.2
  refine ⟨hbooks, ?_, ?_⟩
  · intro c hc
    simp only [removePageInstance, List.mem_filter, decide_eq_true_eq] at hc
    exact List.length_pos.mp hc.2
  · intro b _ hnil hmem
    exact hbooks b hmem hnil

/-- C9 witness: a book with an empty page list is removed by
`removePageInstance` of an id that occurs nowhere in the state. -/
theorem removePageInstance_drops_all_emptied_witness :
    sampleBook "b0" "bt" [] ∉
      (removePageInstance { defaultState with books := [sampleBook "b0" "bt" []] }
        "zz").books :=
  (removePageInstance_drops_all_emptied
      { defaultState with books := [sampleBook "b0" "bt" []] } "zz").2.2
    (sampleBook "b0" "bt" []) (by decide) rfl

/-- C5: for `B ∈ books` and `P ∈ pages` with `P.id ∈ B.pageInstanceIds`,
after `removePageInstance P.id` the filtered version of `B` survives iff
its filtered list is non-empty (it is absent exactly when every entry
equalled `P.id`), and in either case the filtered list no longer contains
`P.id`. -/
theorem removePageInstance_shapeA (s : TemplateState) (B : BookInstance)
    (P : PageInstance) (hB : B ∈ s.books) (_hP : P ∈ s.pages)
    (_hmem : P.id ∈ B.pageInstanceIds) :
    (({ B with pageInstanceIds := B.pageInstanceIds.filter (fun i => decide (i ≠ P.id)) } :
        BookInstance) ∈ (removePageInstance s P.id).books ↔
      B.pageInstanceIds.filter (fun i => decide (i ≠ P.id)) ≠ []) ∧
    P.id ∉ B.pageInstanceIds.filter (fun i => decide (i ≠ P.id)) ∧
    (B.pageInstanceIds.filter (fun i => decide (i ≠ P.id)) = [] ↔
      ∀ i ∈ B.pageInstanceIds, i = P.id) := by
  refine ⟨?_, ?_, ?_⟩
  · constructor
    · intro h
      simp only [removePageInstance, List.mem_filter, decide_eq_true_eq] at h
      exact List.length_pos.mp h.2
    · intro h
      simp only [removePageInstance, List.mem_filter, decide_eq_true_eq]
      exact ⟨List.mem_map_of_mem _ hB, List.length_pos.mpr h⟩
  · simp
  · simp [List.filter_eq_nil_iff]

/-- C5 witness: in a concrete state, the book filtered of the removed page
id survives with the page id gone. -/
theorem removePageInstance_shapeA_witness :
    ({ sampleBook "b1" "bt1" ["p1", "p2"] with
        pageInstanceIds :=
          (sampleBook "b1" "bt1" ["p1", "p2"]).pageInstanceIds.filter
            (fun i => decide (i ≠ (samplePage "p1" "pt1").id)) } : BookInstance) ∈
      (removePageInstance
        { defaultState with
          pages := [samplePage "p1" "pt1"]
          books := [sampleBook "b1" "bt1" ["p1", "p2"]] }
        (samplePage "p1" "pt1").id).books :=
  (removePageInstance_shapeA
      { defaultState with
        pages := [samplePage "p1" "pt1"]
        books := [sampleBook "b1" "bt1" ["p1", "p2"]] }
      (sampleBook "b1" "bt1" ["p1", "p2"]) (samplePage "p1" "pt1")
      (by decide) (by decide) (by decide)).1.mpr (by decide)

theorem filter_eq_self_of {α : Type} (l : List α) (p : α → Bool)
    (h : ∀ a ∈ l, p a = true) : l.filter p = l :=
  List.filter_eq_self.mpr h

theorem filter_eq_nil_of {α : Type} (l : List α) (p : α → Bool)
    (h : ∀ a ∈ l, ¬ p a = true) : l.filter p = [] :=
  List.filter_eq_nil_iff.mpr h

theorem map_eq_self_of {α : Type} (l : List α) (f : α → α)
    (h : ∀ a ∈ l, f a = a) : l.map f = l := by
  conv_rhs => rw [← List.map_id l]
  exact List.map_congr_left h

/-- `removeCatalogInstance` is the identity when no catalog bears the id. -/
theorem removeCatalogInstance_fixed (s : TemplateState) (x : String)
    (h : ∀ c ∈ s.catalogs, c.id ≠ x) : removeCatalogInstance s x = s := by
  obtain ⟨pt, bt, ct, pg, bk, cg⟩ := s
  simp only [removeCatalogInstance, TemplateState.mk.injEq]
  refine ⟨trivial, trivial, trivial, trivial, trivial, ?_⟩
  exact filter_eq_self_of _ _ (fun c hcm => by simpa using h c hcm)

/-- `removeCatalogTemplate` is the identity when no catalog template bears
the id and no catalog instance references it. -/
theorem removeCatalogTemplate_fixed (s : TemplateState) (x : String)
    (h1 : ∀ t ∈ s.catalogTemplates, t.id ≠ x)
    (h2 : ∀ c ∈ s.catalogs, c.templateId ≠ x) : removeCatalogTemplate s x = s := by
  obtain ⟨pt, bt, ct, pg, bk, cg⟩ := s
  simp only [removeCatalogTemplate, TemplateState.mk.injEq]
  refine ⟨trivial, trivial, ?_, trivial, trivial, ?_⟩
  · exact filter_eq_self_of _ _ (fun t htm => by simpa using h1 t htm)
  · exact filter_eq_self_of _ _ (fun c hcm => by simpa using h2 c hcm)

/-- `removeBookInstance` is the identity when no book bears the id, no
catalog references it, and every catalog list is non-empty. -/
theorem removeBookInstance_fixed (s : TemplateState) (x : String)
    (hb : ∀ b ∈ s.books, b.id ≠ x)
    (hc : ∀ c ∈ s.catalogs, x ∉ c.bookInstanceIds ∧ c.bookInstanceIds ≠ []) :
    removeBookInstance s x = s := by
  obtain ⟨pt, bt, ct, pg, bk, cg⟩ := s
  simp only [removeBookInstance, TemplateState.mk.injEq]
  refine ⟨trivial, trivial, trivial, trivial, ?_, ?_⟩
  · exact filter_eq_self_of _ _ (fun b hbm => by simpa using hb b hbm)
  · have hmap : cg.map (fun catalog =>
        { catalog with
          bookInstanceIds :=
            catalog.bookInstanceIds.filter (fun i => decide (i ≠ x)) }) = cg := by
      refine map_eq_self_of _ _ (fun c hcm => ?_)
      have : c.bookInstanceIds.filter (fun i => decide (i ≠ x)) = c.bookInstanceIds :=
        filter_eq_self_of _ _ (fun i him => by
          simp only [decide_eq_true_eq]
          exact fun hix => (hc c hcm).1 (hix ▸ him))
      rw [this]
    rw [hmap]
    exact filter_eq_self_of _ _ (fun c hcm => by
      simpa [List.length_pos] using (hc c hcm).2)

theorem removePageInstance_fixed (s : TemplateState) (x : String)
    (hp : ∀ p ∈ s.pages, p.id ≠ x)
    (hb : ∀ b ∈ s.books, x ∉ b.pageInstanceIds ∧ b.pageInstanceIds ≠ [])
    (hc : ∀ c ∈ s.catalogs, c.bookInstanceIds ≠ []) :
    removePageInstance s x = s := by
  obtain ⟨pt, bt, ct, pg, bk, cg⟩ := s
  have hub : (bk.map (fun book =>
      { book with
        pageInstanceIds :=
          book.pageInstanceIds.filter (fun i => decide (i ≠ x)) })).filter
        (fun book => decide (book.pageInstanceIds.length > 0)) = bk := by
    rw [map_eq_self_of _ _ (fun b hbm => by
      rw [filter_eq_self_of _ _ (fun i him => by
        simp only [decide_eq_true_eq]
        exact fun hix => (hb b hbm).1 (hix ▸ him))])]
    exact filter_eq_self_of _ _ (fun b hbm => by
      simpa [List.length_pos] using (hb b hbm).2)
  have hrem : ((bk.map (fun book => book.id)).filter
      (fun i => ! bk.any (fun book => book.id == i))) = [] := by
    refine filter_eq_nil_of _ _ (fun i him => ?_)
    simp only [List.mem_map] at him
    obtain ⟨b0, hb0, rfl⟩ := him
    simp only [Bool.not_eq_true', Bool.not_eq_false, List.any_eq_true]
    exact ⟨b0, hb0, by simp⟩
  have hnil : ∀ (L : List String),
      L.filter (fun i => decide (i ∉ ([] : List String))) = L :=
    fun L => filter_eq_self_of _ _ (by simp)
  simp only [removePageInstance, TemplateState.mk.injEq]
  refine ⟨trivial, trivial, trivial, ?_, ?_, ?_⟩
  · exact filter_eq_self_of _ _ (fun p hpm => by simpa using hp p hpm)
  · exact hub
  · simp only [hub, hrem, hnil]
    rw [map_eq_self_of _ _ (fun c _ => rfl)]
    exact filter_eq_self_of _ _ (fun c hcm => by
      simpa [List.length_pos] using hc c hcm)

theorem removeBookTemplate_fixed (s : TemplateState) (x : String)
    (hbk : ∀ b ∈ s.books, b.templateId ≠ x)
    (hbt : ∀ t ∈ s.bookTemplates, t.id ≠ x)
    (hct : ∀ t ∈ s.catalogTemplates, x ∉ t.bookTemplateIds ∧ t.bookTemplateIds ≠ []) :
    removeBookTemplate s x = s := by
  obtain ⟨pt, bt, ct, pg, bk, cg⟩ := s
  have he : bk.filter (fun book => decide (book.templateId = x)) = [] :=
    filter_eq_nil_of _ _ (fun b hbm => by simpa using hbk b hbm)
  simp only [removeBookTemplate, TemplateState.mk.injEq, he, List.map_nil]
  refine ⟨trivial, ?_, ?_, trivial, ?_, ?_⟩
  · exact filter_eq_self_of _ _ (fun t htm => by simpa using hbt t htm)
  · rw [map_eq_self_of _ _ (fun t htm => by
      rw [filter_eq_self_of _ _ (fun i him => by
        simp only [decide_eq_true_eq]
        exact fun hix => (hct t htm).1 (hix ▸ him))])]
    exact filter_eq_self_of _ _ (fun t htm => by
      simpa [List.length_pos] using (hct t htm).2)
  · exact filter_eq_self_of _ _ (fun b hbm => by simpa using hbk b hbm)
  · exact filter_eq_self_of _ _ (fun c _ => by simp)

theorem removePageTemplate_fixed (s : TemplateState) (x : String)
    (hpg : ∀ p ∈ s.pages, p.templateId ≠ x)
    (hpt : ∀ t ∈ s.pageTemplates, t.id ≠ x)
    (hbt : ∀ t ∈ s.bookTemplates, x ∉ t.pageTemplateIds ∧ t.pageTemplateIds ≠ [])
    (hbk : ∀ b ∈ s.books, b.pageInstanceIds ≠ [] ∧
      b.templateId ∈ s.bookTemplates.map (fun t => t.id))
    (hct : ∀ t ∈ s.catalogTemplates,
      (∀ r ∈ t.bookTemplateIds, r ∈ s.bookTemplates.map (fun tt => tt.id)) ∧
        t.bookTemplateIds ≠ [])
    (hcg : ∀ c ∈ s.catalogs, c.bookInstanceIds ≠ []) :
    removePageTemplate s x = s := by
  obtain ⟨pt, bt, ct, pg, bk, cg⟩ := s
  have hnil : ∀ (L : List String),
      L.filter (fun i => decide (i ∉ ([] : List String))) = L :=
    fun L => filter_eq_self_of _ _ (by simp)
  have e1 : pg.filter (fun page => decide (page.templateId = x)) = [] :=
    filter_eq_nil_of _ _ (fun p hpm => by simpa using hpg p hpm)
  have eUB : (bk.map (fun book =>
      { book with
        pageInstanceIds := book.pageInstanceIds })).filter
        (fun book => decide (book.pageInstanceIds.length > 0)) = bk := by
    rw [map_eq_self_of _ _ (fun b _ => rfl)]
    exact filter_eq_self_of _ _ (fun b hbm => by
      simpa [List.length_pos] using (hbk b hbm).1)
  have eUBT : (bt.map (fun bookTemplate =>
      { bookTemplate with
        pageTemplateIds :=
          bookTemplate.pageTemplateIds.filter (fun i => decide (i ≠ x)) })).filter
        (fun template => decide (template.pageTemplateIds.length > 0)) = bt := by
    rw [map_eq_self_of _ _ (fun t htm => by
      rw [filter_eq_self_of _ _ (fun i him => by
        simp only [decide_eq_true_eq]
        exact fun hix => (hbt t htm).1 (hix ▸ him))])]
    exact filter_eq_self_of _ _ (fun t htm => by
      simpa [List.length_pos] using (hbt t htm).2)
  have eBK : bk.filter
      (fun book => decide (book.templateId ∈ bt.map (fun template => template.id))) = bk :=
    filter_eq_self_of _ _ (fun b hbm => by
      simpa using (hbk b hbm).2)
  have hrem : ((bk.map (fun book => book.id)).filter
      (fun i => ! bk.any (fun book => book.id == i))) = [] := by
    refine filter_eq_nil_of _ _ (fun i him => ?_)
    simp only [List.mem_map] at him
    obtain ⟨b0, hb0, rfl⟩ := him
    simp only [Bool.not_eq_true', Bool.not_eq_false, List.any_eq_true]
    exact ⟨b0, hb0, by simp⟩
  simp only [removePageTemplate, TemplateState.mk.injEq, e1, List.map_nil, hnil]
  simp only [eUB, eUBT, eBK, hrem, hnil]
  refine ⟨?_, trivial, ?_, ?_, trivial, ?_⟩
  · exact filter_eq_self_of _ _ (fun t htm => by simpa using hpt t htm)
  · rw [map_eq_self_of _ _ (fun t htm => by
      rw [filter_eq_self_of _ _ (fun i him => by
        simp only [decide_eq_true_eq]
        exact (hct t htm).1 i him)])]
    exact filter_eq_self_of _ _ (fun t htm => by
      simpa [List.length_pos] using (hct t htm).2)
  · exact filter_eq_self_of _ _ (fun p hpm => by simpa using hpg p hpm)
  · rw [map_eq_self_of _ _ (fun c _ => rfl)]
    exact filter_eq_self_of _ _ (fun c hcm => by
      simpa [List.length_pos] using hcg c hcm)


/-- C3 (amended): on a state satisfying invariants 1-4 in which every
composite template and container instance has a non-empty reference list,
each of the six remove operations applied to an id that is not the id of
any entity of its target kind returns a state equal to the original (the
service still publishes and persists that unchanged state). -/
theorem remove_nonexistent_noop (s : TemplateState) (x : String)
    (hinv : Invariants s) (hne : AllReferenceListsNonempty s) :
    ((∀ t ∈ s.pageTemplates, t.id ≠ x) → removePageTemplate s x = s) ∧
    ((∀ t ∈ s.bookTemplates, t.id ≠ x) → removeBookTemplate s x = s) ∧
    ((∀ t ∈ s.catalogTemplates, t.id ≠ x) → removeCatalogTemplate s x = s) ∧
    ((∀ p ∈ s.pages, p.id ≠ x) → removePageInstance s x = s) ∧
    ((∀ b ∈ s.books, b.id ≠ x) → removeBookInstance s x = s) ∧
    ((∀ c ∈ s.catalogs, c.id ≠ x) → removeCatalogInstance s x = s) := by
  obtain ⟨h1p, h1b, h1c, h2, h3, h4bt, h4ct⟩ := hinv
  obtain ⟨hneBT, hneCT, hneBK, hneCG⟩ := hne
  refine ⟨?_, ?_, ?_, ?_, ?_, ?_⟩
  · intro hx
    refine removePageTemplate_fixed s x ?_ hx ?_ ?_ ?_ hneCG
    · intro p hpm
      obtain ⟨t, htm, htid⟩ := h1p p hpm
      exact htid ▸ hx t htm
    · intro t htm
      refine ⟨fun hxmem => ?_, hneBT t htm⟩
      obtain ⟨pt', hpt', hid⟩ := h4bt t htm x hxmem
      exact hx pt' hpt' hid
    · intro b hbm
      refine ⟨hneBK b hbm, ?_⟩
      obtain ⟨t, htm, htid⟩ := h1b b hbm
      exact List.mem_map.mpr ⟨t, htm, htid⟩
    · intro t htm
      refine ⟨fun r hrm => ?_, hneCT t htm⟩
      obtain ⟨bt', hbt', hid⟩ := h4ct t htm r hrm
      exact List.mem_map.mpr ⟨bt', hbt', hid⟩
  · intro hx
    refine removeBookTemplate_fixed s x ?_ hx ?_
    · intro b hbm
      obtain ⟨t, htm, htid⟩ := h1b b hbm
      exact htid ▸ hx t htm
    · intro t htm
      refine ⟨fun hxmem => ?_, hneCT t htm⟩
      obtain ⟨bt', hbt', hid⟩ := h4ct t htm x hxmem
      exact hx bt' hbt' hid
  · intro hx
    refine removeCatalogTemplate_fixed s x hx ?_
    intro c hcm
    obtain ⟨t, htm, htid⟩ := h1c c hcm
    exact htid ▸ hx t htm
  · intro hx
    refine removePageInstance_fixed s x hx ?_ hneCG
    intro b hbm
    refine ⟨fun hxmem => ?_, hneBK b hbm⟩
    obtain ⟨p, hpm, hid⟩ := h2 b hbm x hxmem
    exact hx p hpm hid
  · intro hx
    refine removeBookInstance_fixed s x hx ?_
    intro c hcm
    refine ⟨fun hxmem => ?_, hneCG c hcm⟩
    obtain ⟨b, hbm, hid⟩ := h3 c hcm x hxmem
    exact hx b hbm hid
  · intro hx
    exact removeCatalogInstance_fixed s x hx

/-- C3 counterexample: on a state holding one book instance with an empty
page list, removing a page-instance id that occurs nowhere in the state is
not a no-op — the empty-listed book is dropped by the cascade filter. -/
theorem remove_nonexistent_not_noop_cex :
    (∀ p ∈ ({ defaultState with books := [sampleBook "b1" "bt1" []] } : TemplateState).pages,
        p.id ≠ "ghost") ∧
    removePageInstance { defaultState with books := [sampleBook "b1" "bt1" []] } "ghost" ≠
      { defaultState with books := [sampleBook "b1" "bt1" []] } := by
  decide

/-- C3 witness: a concrete invariant-satisfying state where removing an
unknown page-template id leaves the state unchanged. -/
theorem remove_nonexistent_noop_witness :
    Invariants { defaultState with pageTemplates := [samplePageTemplate "pt1"] } ∧
    AllReferenceListsNonempty { defaultState with pageTemplates := [samplePageTemplate "pt1"] } ∧
    removePageTemplate { defaultState with pageTemplates := [samplePageTemplate "pt1"] } "ghost" =
      { defaultState with pageTemplates := [samplePageTemplate "pt1"] } :=
  ⟨by decide, by decide,
    (remove_nonexistent_noop { defaultState with pageTemplates := [samplePageTemplate "pt1"] }
      "ghost" (by decide) (by decide)).1 (by decide)⟩


/-- C4: each of the six remove operations is idempotent — applying it twice
with the same id yields the same state as applying it once. -/
theorem remove_idempotent (s : TemplateState) (x : String) :
    removePageTemplate (removePageTemplate s x) x = removePageTemplate s x ∧
    removeBookTemplate (removeBookTemplate s x) x = removeBookTemplate s x ∧
    removeCatalogTemplate (removeCatalogTemplate s x) x = removeCatalogTemplate s x ∧
    removePageInstance (removePageInstance s x) x = removePageInstance s x ∧
    removeBookInstance (removeBookInstance s x) x = removeBookInstance s x ∧
    removeCatalogInstance (removeCatalogInstance s x) x = removeCatalogInstance s x := by
  refine ⟨?_, ?_, ?_, ?_, ?_, ?_⟩
  · refine removePageTemplate_fixed _ x ?_ ?_ ?_ ?_ ?_ ?_
    · intro p hpm
      simp only [removePageTemplate, List.mem_filter, decide_eq_true_eq] at hpm
      exact hpm.2
    · intro t htm
      simp only [removePageTemplate, List.mem_filter, decide_eq_true_eq] at htm
      exact htm.2
    · intro t htm
      simp only [removePageTemplate, List.mem_filter, List.mem_map,
        decide_eq_true_eq] at htm
      obtain ⟨⟨t0, ht0, rfl⟩, hlen⟩ := htm
      refine ⟨?_, List.length_pos.mp hlen⟩
      simp only [List.mem_filter, decide_eq_true_eq]
      rintro ⟨-, hxx⟩
      exact hxx rfl
    · intro b hbm
      simp only [removePageTemplate, List.mem_filter, List.mem_map,
        decide_eq_true_eq] at hbm ⊢
      obtain ⟨⟨⟨b0, hb0, rfl⟩, hlen⟩, hvalid⟩ := hbm
      exact ⟨List.length_pos.mp hlen, hvalid⟩
    · intro t htm
      simp only [removePageTemplate, List.mem_filter, List.mem_map,
        decide_eq_true_eq] at htm ⊢
      obtain ⟨⟨t0, ht0, rfl⟩, hlen⟩ := htm
      refine ⟨?_, List.length_pos.mp hlen⟩
      intro r hrm
      simp only [List.mem_filter, List.mem_map, decide_eq_true_eq] at hrm
      exact hrm.2
    · intro c hcm
      simp only [removePageTemplate, List.mem_filter, List.mem_map,
        decide_eq_true_eq] at hcm
      obtain ⟨⟨c0, hc0, rfl⟩, hlen⟩ := hcm
      exact List.length_pos.mp hlen
  · refine removeBookTemplate_fixed _ x ?_ ?_ ?_
    · intro b hbm
      simp only [removeBookTemplate, List.mem_filter, decide_eq_true_eq] at hbm
      exact hbm.2
    · intro t htm
      simp only [removeBookTemplate, List.mem_filter, decide_eq_true_eq] at htm
      exact htm.2
    · intro t htm
      simp only [removeBookTemplate, List.mem_filter, List.mem_map,
        decide_eq_true_eq] at htm
      obtain ⟨⟨t0, ht0, rfl⟩, hlen⟩ := htm
      refine ⟨?_, List.length_pos.mp hlen⟩
      simp only [List.mem_filter, decide_eq_true_eq]
      rintro ⟨-, hxx⟩
      exact hxx rfl
  · refine removeCatalogTemplate_fixed _ x ?_ ?_
    · intro t htm
      simp only [removeCatalogTemplate, List.mem_filter, decide_eq_true_eq] at htm
      exact htm.2
    · intro c hcm
      simp only [removeCatalogTemplate, List.mem_filter, decide_eq_true_eq] at hcm
      exact hcm.2
  · refine removePageInstance_fixed _ x ?_ ?_ ?_
    · intro p hpm
      simp only [removePageInstance, List.mem_filter, decide_eq_true_eq] at hpm
      exact hpm.2
    · intro b hbm
      simp only [removePageInstance, List.mem_filter, List.mem_map,
        decide_eq_true_eq] at hbm
      obtain ⟨⟨b0, hb0, rfl⟩, hlen⟩ := hbm
      refine ⟨?_, List.length_pos.mp hlen⟩
      simp only [List.mem_filter, decide_eq_true_eq]
      rintro ⟨-, hxx⟩
      exact hxx rfl
    · intro c hcm
      simp only [removePageInstance, List.mem_filter, List.mem_map,
        decide_eq_true_eq] at hcm
      obtain ⟨⟨c0, hc0, rfl⟩, hlen⟩ := hcm
      exact List.length_pos.mp hlen
  · refine removeBookInstance_fixed _ x ?_ ?_
    · intro b hbm
      simp only [removeBookInstance, List.mem_filter, decide_eq_true_eq] at hbm
      exact hbm.2
    · intro c hcm
      simp only [removeBookInstance, List.mem_filter, List.mem_map,
        decide_eq_true_eq] at hcm
      obtain ⟨⟨c0, hc0, rfl⟩, hlen⟩ := hcm
      refine ⟨?_, List.length_pos.mp hlen⟩
      simp only [List.mem_filter, decide_eq_true_eq]
      rintro ⟨-, hxx⟩
      exact hxx rfl
  · refine removeCatalogInstance_fixed _ x ?_
    intro c hcm
    simp only [removeCatalogInstance, List.mem_filter, decide_eq_true_eq] at hcm
    exact hcm.2

theorem surviving_book_of_not_removed (bks after : List BookInstance) (r : String)
    (hmem : ∃ b ∈ bks, b.id = r)
    (hnot : ¬((∃ b ∈ bks, b.id = r) ∧
      (! after.any (fun book => book.id == r)) = true)) :
    ∃ b ∈ after, b.id = r := by
  have hne : ¬ (! after.any (fun book => book.id == r)) = true :=
    fun hb => hnot ⟨hmem, hb⟩
  have hany : after.any (fun book => book.id == r) = true := by
    revert hne
    cases hcase : after.any (fun book => book.id == r) <;> simp
  obtain ⟨bb, hbb, hbeq⟩ := List.any_eq_true.mp hany
  exact ⟨bb, hbb, by simpa using hbeq⟩

theorem wf_removeCatalogInstance (s : TemplateState) (x : String) (h : WF s) :
    WF (removeCatalogInstance s x) := by
  obtain ⟨⟨h1p, h1b, h1c, h2, h3, h4bt, h4ct⟩, hconf, hne⟩ := h
  refine ⟨⟨h1p, h1b, ?_, h2, ?_, h4bt, h4ct⟩, ?_, ?_⟩
  · intro c hcm
    simp only [removeCatalogInstance, List.mem_filter] at hcm
    exact h1c c hcm.1
  · intro c hcm
    simp only [removeCatalogInstance, List.mem_filter] at hcm
    exact h3 c hcm.1
  · intro c hcm
    simp only [removeCatalogInstance, List.mem_filter] at hcm
    exact hconf c hcm.1
  · intro c hcm
    simp only [removeCatalogInstance, List.mem_filter] at hcm
    exact hne c hcm.1

theorem wf_removeCatalogTemplate (s : TemplateState) (x : String) (h : WF s) :
    WF (removeCatalogTemplate s x) := by
  obtain ⟨⟨h1p, h1b, h1c, h2, h3, h4bt, h4ct⟩, hconf, hne⟩ := h
  refine ⟨⟨h1p, h1b, ?_, h2, ?_, h4bt, ?_⟩, ?_, ?_⟩
  · intro c hcm
    simp only [removeCatalogTemplate, List.mem_filter, decide_eq_true_eq] at hcm ⊢
    obtain ⟨t, htm, htid⟩ := h1c c hcm.1
    exact ⟨t, ⟨htm, htid ▸ hcm.2⟩, htid⟩
  · intro c hcm
    simp only [removeCatalogTemplate, List.mem_filter] at hcm
    exact h3 c hcm.1
  · intro t htm
    simp only [removeCatalogTemplate, List.mem_filter] at htm
    exact h4ct t htm.1
  · intro c hcm t htm
    simp only [removeCatalogTemplate, List.mem_filter] at hcm htm
    exact hconf c hcm.1 t htm.1
  · intro c hcm
    simp only [removeCatalogTemplate, List.mem_filter] at hcm
    exact hne c hcm.1

theorem wf_removeBookInstance (s : TemplateState) (x : String) (h : WF s) :
    WF (removeBookInstance s x) := by
  obtain ⟨⟨h1p, h1b, h1c, h2, h3, h4bt, h4ct⟩, hconf, hne⟩ := h
  refine ⟨⟨h1p, ?_, ?_, ?_, ?_, h4bt, h4ct⟩, ?_, ?_⟩
  · intro b hbm
    simp only [removeBookInstance, List.mem_filter] at hbm
    exact h1b b hbm.1
  · intro c hcm
    simp only [removeBookInstance, List.mem_filter, List.mem_map,
      decide_eq_true_eq] at hcm
    obtain ⟨⟨c0, hc0, rfl⟩, hlen⟩ := hcm
    exact h1c c0 hc0
  · intro b hbm
    simp only [removeBookInstance, List.mem_filter] at hbm
    exact h2 b hbm.1
  · intro c hcm r hrm
    simp only [removeBookInstance, List.mem_filter, List.mem_map,
      decide_eq_true_eq] at hcm ⊢
    obtain ⟨⟨c0, hc0, rfl⟩, hlen⟩ := hcm
    simp only [List.mem_filter, decide_eq_true_eq] at hrm
    obtain ⟨b, hbm, hid⟩ := h3 c0 hc0 r hrm.1
    exact ⟨b, ⟨hbm, hid ▸ hrm.2⟩, hid⟩
  · intro c hcm t htm hid r hrm b hbm hbid
    simp only [removeBookInstance, List.mem_filter, List.mem_map,
      decide_eq_true_eq] at hcm hbm
    obtain ⟨⟨c0, hc0, rfl⟩, hlen⟩ := hcm
    simp only [List.mem_filter, decide_eq_true_eq] at hrm
    exact hconf c0 hc0 t htm hid r hrm.1 b hbm.1 hbid
  · intro c hcm
    simp only [removeBookInstance, List.mem_filter, List.mem_map,
      decide_eq_true_eq] at hcm
    obtain ⟨⟨c0, hc0, rfl⟩, hlen⟩ := hcm
    exact List.length_pos.mp hlen

theorem wf_removePageInstance (s : TemplateState) (x : String) (h : WF s) :
    WF (removePageInstance s x) := by
  obtain ⟨⟨h1p, h1b, h1c, h2, h3, h4bt, h4ct⟩, hconf, hne⟩ := h
  refine ⟨⟨?_, ?_, ?_, ?_, ?_, h4bt, h4ct⟩, ?_, ?_⟩
  · intro p hpm
    simp only [removePageInstance, List.mem_filter] at hpm
    exact h1p p hpm.1
  · intro b hbm
    simp only [removePageInstance, List.mem_filter, List.mem_map,
      decide_eq_true_eq] at hbm
    obtain ⟨⟨b0, hb0, rfl⟩, hlen⟩ := hbm
    exact h1b b0 hb0
  · intro c hcm
    simp only [removePageInstance, List.mem_filter, List.mem_map,
      decide_eq_true_eq] at hcm
    obtain ⟨⟨c0, hc0, rfl⟩, hlen⟩ := hcm
    exact h1c c0 hc0
  · intro b hbm r hrm
    simp only [removePageInstance, List.mem_filter, List.mem_map,
      decide_eq_true_eq] at hbm ⊢
    obtain ⟨⟨b0, hb0, rfl⟩, hlen⟩ := hbm
    simp only [List.mem_filter, decide_eq_true_eq] at hrm
    obtain ⟨p, hpm, hid⟩ := h2 b0 hb0 r hrm.1
    exact ⟨p, ⟨hpm, hid ▸ hrm.2⟩, hid⟩
  · intro c hcm r hrm
    simp only [removePageInstance, List.mem_filter, List.mem_map,
      decide_eq_true_eq] at hcm
    obtain ⟨⟨c0, hc0, rfl⟩, hlen⟩ := hcm
    rcases List.mem_filter.mp hrm with ⟨hr1, hr2⟩
    rw [decide_eq_true_eq] at hr2
    obtain ⟨b, hbm, hid⟩ := h3 c0 hc0 r hr1
    exact surviving_book_of_not_removed s.books _ r ⟨b, hbm, hid⟩ hr2
  · intro c hcm t htm hid r hrm b hbm hbid
    simp only [removePageInstance, List.mem_filter, List.mem_map,
      decide_eq_true_eq] at hcm hbm
    obtain ⟨⟨c0, hc0, rfl⟩, hlen⟩ := hcm
    obtain ⟨⟨b0, hb0, rfl⟩, hblen⟩ := hbm
    rcases List.mem_filter.mp hrm with ⟨hr1, hr2⟩
    exact hconf c0 hc0 t htm hid r hr1 b0 hb0 hbid
  · intro c hcm
    simp only [removePageInstance, List.mem_filter, List.mem_map,
      decide_eq_true_eq] at hcm
    obtain ⟨⟨c0, hc0, rfl⟩, hlen⟩ := hcm
    exact List.length_pos.mp hlen

theorem wf_removeBookTemplate (s : TemplateState) (x : String) (h : WF s) :
    WF (removeBookTemplate s x) := by
  obtain ⟨⟨h1p, h1b, h1c, h2, h3, h4bt, h4ct⟩, hconf, hne⟩ := h
  refine ⟨⟨h1p, ?_, ?_, ?_, ?_, ?_, ?_⟩, ?_, ?_⟩
  · intro b hbm
    simp only [removeBookTemplate, List.mem_filter, decide_eq_true_eq] at hbm ⊢
    obtain ⟨t, htm, htid⟩ := h1b b hbm.1
    exact ⟨t, ⟨htm, htid ▸ hbm.2⟩, htid⟩
  · intro c hcm
    simp only [removeBookTemplate, List.mem_filter, List.mem_map,
      decide_eq_true_eq] at hcm ⊢
    obtain ⟨hc0, hall⟩ := hcm
    obtain ⟨r, hr⟩ := List.exists_mem_of_ne_nil _ (hne c hc0)
    obtain ⟨b, hbm, hid⟩ := h3 c hc0 r hr
    have hbtid : b.templateId ≠ x := by
      intro heq
      exact hall r hr ⟨b, ⟨hbm, heq⟩, hid⟩
    obtain ⟨ct, hctm, hctid⟩ := h1c c hc0
    have hbconf := hconf c hc0 ct hctm hctid r hr b hbm hid
    refine ⟨{ ct with bookTemplateIds :=
        ct.bookTemplateIds.filter (fun i => decide (i ≠ x)) },
      ⟨⟨ct, hctm, rfl⟩, ?_⟩, hctid⟩
    exact List.length_pos.mpr (List.ne_nil_of_mem
      (List.mem_filter.mpr ⟨hbconf, by simpa using hbtid⟩))
  · intro b hbm
    simp only [removeBookTemplate, List.mem_filter] at hbm
    exact h2 b hbm.1
  · intro c hcm r hrm
    simp only [removeBookTemplate, List.mem_filter, decide_eq_true_eq] at hcm ⊢
    obtain ⟨hc0, hall⟩ := hcm
    obtain ⟨b, hbm, hid⟩ := h3 c hc0 r hrm
    have hbtid : b.templateId ≠ x := by
      intro heq
      exact hall r hrm (List.mem_map.mpr ⟨b, List.mem_filter.mpr
        ⟨hbm, by simp [heq]⟩, hid⟩)
    exact ⟨b, ⟨hbm, hbtid⟩, hid⟩
  · intro t htm
    simp only [removeBookTemplate, List.mem_filter] at htm
    exact h4bt t htm.1
  · intro t htm r hrm
    simp only [removeBookTemplate, List.mem_filter, List.mem_map,
      decide_eq_true_eq] at htm ⊢
    obtain ⟨⟨t0, ht0, rfl⟩, hlen⟩ := htm
    rcases List.mem_filter.mp hrm with ⟨hr1, hr2⟩
    rw [decide_eq_true_eq] at hr2
    obtain ⟨bt0, hbt0, hbtid⟩ := h4ct t0 ht0 r hr1
    exact ⟨bt0, ⟨hbt0, hbtid ▸ hr2⟩, hbtid⟩
  · intro c hcm t htm hid r hrm b hbm hbid
    simp only [removeBookTemplate, List.mem_filter, List.mem_map,
      decide_eq_true_eq] at hcm htm hbm
    obtain ⟨hc0, hall⟩ := hcm
    obtain ⟨⟨t0, ht0, rfl⟩, hlen⟩ := htm
    have hconf0 := hconf c hc0 t0 ht0 hid r hrm b hbm.1 hbid
    simp only [List.mem_filter, decide_eq_true_eq]
    exact ⟨hconf0, hbm.2⟩
  · intro c hcm
    simp only [removeBookTemplate, List.mem_filter] at hcm
    exact hne c hcm.1

theorem surviving_book_of_not_removed' (allIds : List String)
    (after : List BookInstance) (r : String) (hmem : r ∈ allIds)
    (hnot : r ∉ allIds.filter (fun i => ! after.any (fun book => book.id == i))) :
    ∃ b ∈ after, b.id = r := by
  by_contra hnone
  apply hnot
  refine List.mem_filter.mpr ⟨hmem, ?_⟩
  cases hca : after.any (fun book => book.id == r) with
  | false => rfl
  | true =>
      obtain ⟨bb, hbb, hbeq⟩ := List.any_eq_true.mp hca
      exact absurd ⟨bb, hbb, by simpa using hbeq⟩ hnone

theorem wf_removePageTemplate (s : TemplateState) (x : String) (h : WF s) :
    WF (removePageTemplate s x) := by
  obtain ⟨⟨h1p, h1b, h1c, h2, h3, h4bt, h4ct⟩, hconf, hne⟩ := h
  refine ⟨⟨?_, ?_, ?_, ?_, ?_, ?_, ?_⟩, ?_, ?_⟩
  · intro p hpm
    obtain ⟨hp1, hp2b⟩ := List.mem_filter.mp hpm
    have hp2 := of_decide_eq_true hp2b
    obtain ⟨t, htm, htid⟩ := h1p p hp1
    exact ⟨t, List.mem_filter.mpr ⟨htm, decide_eq_true (by rw [htid]; exact hp2)⟩, htid⟩
  · intro b hbm
    obtain ⟨hb1, hbv⟩ := List.mem_filter.mp hbm
    have hvalid := of_decide_eq_true hbv
    obtain ⟨t', ht', htid⟩ := List.mem_map.mp hvalid
    exact ⟨t', ht', htid⟩
  · intro c hcm
    obtain ⟨hcmap, hclen⟩ := List.mem_filter.mp hcm
    obtain ⟨c0, hc0, hfc⟩ := List.mem_map.mp hcmap
    subst hfc
    have hlen := of_decide_eq_true hclen
    obtain ⟨r, hr⟩ := List.exists_mem_of_ne_nil _ (List.length_pos.mp hlen)
    obtain ⟨hr1, hr2b⟩ := List.mem_filter.mp hr
    have hr2 := of_decide_eq_true hr2b
    obtain ⟨b, hbm, hid⟩ := h3 c0 hc0 r hr1
    obtain ⟨b', hb', hb'id⟩ :=
      surviving_book_of_not_removed' _ _ r (List.mem_map.mpr ⟨b, hbm, hid⟩) hr2
    obtain ⟨hb'1, hb'v⟩ := List.mem_filter.mp hb'
    have hb'valid := of_decide_eq_true hb'v
    obtain ⟨hb'map, hb'len⟩ := List.mem_filter.mp hb'1
    obtain ⟨b0', hb0', hfb⟩ := List.mem_map.mp hb'map
    subst hfb
    obtain ⟨ct0, hct0, hctid⟩ := h1c c0 hc0
    have hbt_in : b0'.templateId ∈ ct0.bookTemplateIds :=
      hconf c0 hc0 ct0 hct0 hctid r hr1 b0' hb0' hb'id
    refine ⟨_, List.mem_filter.mpr ⟨List.mem_map.mpr ⟨ct0, hct0, rfl⟩, ?_⟩, hctid⟩
    refine decide_eq_true (List.length_pos.mpr (List.ne_nil_of_mem
      (List.mem_filter.mpr ⟨hbt_in, decide_eq_true hb'valid⟩)))
  · intro b hbm r hrm
    obtain ⟨hb1, hbv⟩ := List.mem_filter.mp hbm
    obtain ⟨hbmap, hblen⟩ := List.mem_filter.mp hb1
    obtain ⟨b0, hb0, hfb⟩ := List.mem_map.mp hbmap
    subst hfb
    obtain ⟨hr1, hr2b⟩ := List.mem_filter.mp hrm
    have hr2 := of_decide_eq_true hr2b
    obtain ⟨p, hpm, hid⟩ := h2 b0 hb0 r hr1
    have hpx : p.templateId ≠ x := fun hpx =>
      hr2 (List.mem_map.mpr ⟨p, List.mem_filter.mpr ⟨hpm, decide_eq_true hpx⟩, hid⟩)
    exact ⟨p, List.mem_filter.mpr ⟨hpm, decide_eq_true hpx⟩, hid⟩
  · intro c hcm r hrm
    obtain ⟨hcmap, hclen⟩ := List.mem_filter.mp hcm
    obtain ⟨c0, hc0, hfc⟩ := List.mem_map.mp hcmap
    subst hfc
    obtain ⟨hr1, hr2b⟩ := List.mem_filter.mp hrm
    have hr2 := of_decide_eq_true hr2b
    obtain ⟨b, hbm, hid⟩ := h3 c0 hc0 r hr1
    exact surviving_book_of_not_removed' _ _ r (List.mem_map.mpr ⟨b, hbm, hid⟩) hr2
  · intro t htm r hrm
    obtain ⟨htmap, htlen⟩ := List.mem_filter.mp htm
    obtain ⟨t0, ht0, hft⟩ := List.mem_map.mp htmap
    subst hft
    obtain ⟨hr1, hr2b⟩ := List.mem_filter.mp hrm
    have hr2 := of_decide_eq_true hr2b
    obtain ⟨pt0, hpt0, hptid⟩ := h4bt t0 ht0 r hr1
    exact ⟨pt0, List.mem_filter.mpr ⟨hpt0,
      decide_eq_true (by rw [hptid]; exact hr2)⟩, hptid⟩
  · intro t htm r hrm
    obtain ⟨htmap, htlen⟩ := List.mem_filter.mp htm
    obtain ⟨t0, ht0, hft⟩ := List.mem_map.mp htmap
    subst hft
    obtain ⟨hr1, hr2b⟩ := List.mem_filter.mp hrm
    have hr2 := of_decide_eq_true hr2b
    obtain ⟨bt', hbt', hbtid⟩ := List.mem_map.mp hr2
    exact ⟨bt', hbt', hbtid⟩
  · intro c hcm t htm hid r hrm b hbm hbid
    obtain ⟨hcmap, hclen⟩ := List.mem_filter.mp hcm
    obtain ⟨c0, hc0, hfc⟩ := List.mem_map.mp hcmap
    subst hfc
    obtain ⟨htmap, htlen⟩ := List.mem_filter.mp htm
    obtain ⟨t0, ht0, hft⟩ := List.mem_map.mp htmap
    subst hft
    obtain ⟨hb1, hbv⟩ := List.mem_filter.mp hbm
    have hv := of_decide_eq_true hbv
    obtain ⟨hbmap, hblen⟩ := List.mem_filter.mp hb1
    obtain ⟨b0, hb0, hfb⟩ := List.mem_map.mp hbmap
    subst hfb
    obtain ⟨hr1, hr2b⟩ := List.mem_filter.mp hrm
    have hcf : b0.templateId ∈ t0.bookTemplateIds :=
      hconf c0 hc0 t0 ht0 hid r hr1 b0 hb0 hbid
    exact List.mem_filter.mpr ⟨hcf, decide_eq_true hv⟩
  · intro c hcm
    obtain ⟨hcmap, hclen⟩ := List.mem_filter.mp hcm
    obtain ⟨c0, hc0, hfc⟩ := List.mem_map.mp hcmap
    subst hfc
    exact List.length_pos.mp (of_decide_eq_true hclen)

theorem exists_mem_append_left {α : Type} {l : List α} (e : List α) {P : α → Prop}
    (h : ∃ a ∈ l, P a) : ∃ a ∈ l ++ e, P a := by
  obtain ⟨a, ha, hp⟩ := h
  exact ⟨a, List.mem_append_left _ ha, hp⟩

theorem wf_createPageTemplate (s : TemplateState) (t : PageTemplate) (h : WF s) :
    WF (createPageTemplate s t) := by
  obtain ⟨⟨h1p, h1b, h1c, h2, h3, h4bt, h4ct⟩, hconf, hne⟩ := h
  exact ⟨⟨fun p hp => exists_mem_append_left _ (h1p p hp), h1b, h1c, h2, h3,
    fun tt htt r hr => exists_mem_append_left _ (h4bt tt htt r hr), h4ct⟩, hconf, hne⟩

theorem wf_createBookTemplate (s : TemplateState) (t : BookTemplate) (h : WF s)
    (hgood : ∀ r ∈ t.pageTemplateIds, ∃ pt ∈ s.pageTemplates, pt.id = r) :
    WF (createBookTemplate s t) := by
  obtain ⟨⟨h1p, h1b, h1c, h2, h3, h4bt, h4ct⟩, hconf, hne⟩ := h
  refine ⟨⟨h1p, fun b hb => exists_mem_append_left _ (h1b b hb), h1c, h2, h3,
    ?_, fun tt htt r hr => exists_mem_append_left _ (h4ct tt htt r hr)⟩, hconf, hne⟩
  intro tt htt r hr
  rcases List.mem_append.mp htt with htt0 | htt1
  · exact h4bt tt htt0 r hr
  · rw [List.mem_singleton.mp htt1] at hr
    exact hgood r hr

theorem wf_createCatalogTemplate (s : TemplateState) (t : CatalogTemplate) (h : WF s)
    (hgood : ∀ r ∈ t.bookTemplateIds, ∃ bt ∈ s.bookTemplates, bt.id = r)
    (hfresh : ∀ ct ∈ s.catalogTemplates, ct.id ≠ t.id) :
    WF (createCatalogTemplate s t) := by
  obtain ⟨⟨h1p, h1b, h1c, h2, h3, h4bt, h4ct⟩, hconf, hne⟩ := h
  refine ⟨⟨h1p, h1b, fun c hc => exists_mem_append_left _ (h1c c hc), h2, h3,
    h4bt, ?_⟩, ?_, hne⟩
  · intro tt htt r hr
    rcases List.mem_append.mp htt with htt0 | htt1
    · exact h4ct tt htt0 r hr
    · rw [List.mem_singleton.mp htt1] at hr
      exact hgood r hr
  · intro c hc ct hct hid r hr b hb hbid
    rcases List.mem_append.mp hct with hct0 | hct1
    · exact hconf c hc ct hct0 hid r hr b hb hbid
    · exfalso
      obtain ⟨ct0, hct0, hctid0⟩ := h1c c hc
      rw [List.mem_singleton.mp hct1] at hid
      exact hfresh ct0 hct0 (hctid0.trans hid.symm ▸ rfl)

theorem wf_createPageInstance (s : TemplateState) (e : PageInstance) (h : WF s)
    (hgood : ∃ pt ∈ s.pageTemplates, pt.id = e.templateId) :
    WF (createPageInstance s e) := by
  obtain ⟨⟨h1p, h1b, h1c, h2, h3, h4bt, h4ct⟩, hconf, hne⟩ := h
  refine ⟨⟨?_, h1b, h1c, ?_, h3, h4bt, h4ct⟩, hconf, hne⟩
  · intro p hp
    rcases List.mem_append.mp hp with hp0 | hp1
    · exact h1p p hp0
    · rw [List.mem_singleton.mp hp1]
      exact hgood
  · intro b hb r hr
    exact exists_mem_append_left _ (h2 b hb r hr)

theorem wf_createBookInstance (s : TemplateState) (e : BookInstance) (h : WF s)
    (hgood1 : ∃ bt ∈ s.bookTemplates, bt.id = e.templateId)
    (hgood2 : ∀ r ∈ e.pageInstanceIds, ∃ p ∈ s.pages, p.id = r)
    (hfresh : ∀ b ∈ s.books, b.id ≠ e.id) :
    WF (createBookInstance s e) := by
  obtain ⟨⟨h1p, h1b, h1c, h2, h3, h4bt, h4ct⟩, hconf, hne⟩ := h
  refine ⟨⟨h1p, ?_, h1c, ?_, ?_, h4bt, h4ct⟩, ?_, hne⟩
  · intro b hb
    rcases List.mem_append.mp hb with hb0 | hb1
    · exact h1b b hb0
    · rw [List.mem_singleton.mp hb1]
      exact hgood1
  · intro b hb r hr
    rcases List.mem_append.mp hb with hb0 | hb1
    · exact h2 b hb0 r hr
    · rw [List.mem_singleton.mp hb1] at hr
      exact hgood2 r hr
  · intro c hc r hr
    exact exists_mem_append_left _ (h3 c hc r hr)
  · intro c hc ct hct hid r hr b hb hbid
    rcases List.mem_append.mp hb with hb0 | hb1
    · exact hconf c hc ct hct hid r hr b hb0 hbid
    · exfalso
      obtain ⟨b0, hb0, hbid0⟩ := h3 c hc r hr
      rw [List.mem_singleton.mp hb1] at hbid
      exact hfresh b0 hb0 (hbid0.trans hbid.symm)

theorem wf_createCatalogInstance (s : TemplateState) (e : CatalogInstance) (h : WF s)
    (hgood1 : ∃ ct ∈ s.catalogTemplates, ct.id = e.templateId)
    (hgood2 : ∀ r ∈ e.bookInstanceIds, ∃ b ∈ s.books, b.id = r)
    (hgood3 : e.bookInstanceIds ≠ [])
    (hgood4 : ∀ ct ∈ s.catalogTemplates, ct.id = e.templateId →
      ∀ r ∈ e.bookInstanceIds, ∀ b ∈ s.books, b.id = r →
        b.templateId ∈ ct.bookTemplateIds) :
    WF (createCatalogInstance s e) := by
  obtain ⟨⟨h1p, h1b, h1c, h2, h3, h4bt, h4ct⟩, hconf, hne⟩ := h
  refine ⟨⟨h1p, h1b, ?_, h2, ?_, h4bt, h4ct⟩, ?_, ?_⟩
  · intro c hc
    rcases List.mem_append.mp hc with hc0 | hc1
    · exact h1c c hc0
    · rw [List.mem_singleton.mp hc1]
      exact hgood1
  · intro c hc r hr
    rcases List.mem_append.mp hc with hc0 | hc1
    · exact h3 c hc0 r hr
    · rw [List.mem_singleton.mp hc1] at hr
      exact hgood2 r hr
  · intro c hc ct hct hid r hr b hb hbid
    rcases List.mem_append.mp hc with hc0 | hc1
    · exact hconf c hc0 ct hct hid r hr b hb hbid
    · rw [List.mem_singleton.mp hc1] at hid hr
      exact hgood4 ct hct hid r hr b hb hbid
  · intro c hc
    rcases List.mem_append.mp hc with hc0 | hc1
    · exact hne c hc0
    · rw [List.mem_singleton.mp hc1]
      exact hgood3

theorem wf_applyOp (s : TemplateState) (op : Op) (hwf : WF s)
    (hgood : GoodOp s op) : WF (applyOp s op) := by
  cases op with
  | createPageTemplate t => exact wf_createPageTemplate s t hwf
  | createBookTemplate t => exact wf_createBookTemplate s t hwf hgood
  | createCatalogTemplate t => exact wf_createCatalogTemplate s t hwf hgood.1 hgood.2
  | createPageInstance e => exact wf_createPageInstance s e hwf hgood
  | createBookInstance e =>
      exact wf_createBookInstance s e hwf hgood.1 hgood.2.1 hgood.2.2
  | createCatalogInstance e =>
      exact wf_createCatalogInstance s e hwf hgood.1 hgood.2.1 hgood.2.2.1 hgood.2.2.2
  | removePageTemplate i => exact wf_removePageTemplate s i hwf
  | removeBookTemplate i => exact wf_removeBookTemplate s i hwf
  | removeCatalogTemplate i => exact wf_removeCatalogTemplate s i hwf
  | removePageInstance i => exact wf_removePageInstance s i hwf
  | removeBookInstance i => exact wf_removeBookInstance s i hwf
  | removeCatalogInstance i => exact wf_removeCatalogInstance s i hwf

theorem wf_execOps (s : TemplateState) (ops : List Op) (hwf : WF s)
    (hgood : GoodSeq s ops) : WF (execOps s ops) := by
  induction ops generalizing s with
  | nil => exact hwf
  | cons op rest ih =>
      exact ih (applyOp s op) (wf_applyOp s op hwf hgood.1) hgood.2

theorem goodSeq_take (s : TemplateState) (ops : List Op) (n : ℕ)
    (hgood : GoodSeq s ops) : GoodSeq s (ops.take n) := by
  induction ops generalizing s n with
  | nil => simp [List.take_nil]; exact hgood
  | cons op rest ih =>
      cases n with
      | zero => exact trivial
      | succ m => exact ⟨hgood.1, ih (applyOp s op) m hgood.2⟩

theorem wf_defaultState : WF defaultState := by decide

/-- C1 (amended): along every run from the empty state whose create
operations are well-formed — reference ids drawn from the current state,
observably fresh ids, catalog instances created non-empty and conformant to
their template — the state published after each operation satisfies
invariants 1–4. -/
theorem invariants_hold_along_wellformed_runs (ops : List Op) (n : ℕ)
    (hgood : GoodSeq defaultState ops) :
    Invariants (execOps defaultState (ops.take n)) :=
  (wf_execOps defaultState (ops.take n) wf_defaultState
    (goodSeq_take defaultState ops n hgood)).1

/-- C1 counterexample: a single create of a page instance whose template
id matches no page template yields a published state violating
invariant 1, so the claim fails for unrestricted create sequences. -/
theorem invariants_can_fail_after_create_cex :
    ¬ Invariants (execOps defaultState
      [Op.createPageInstance (samplePage "p1" "ghost")]) := by
  decide

/-- C1 witness: a concrete well-formed three-operation run whose prefix of
length two satisfies the invariants. -/
theorem invariants_hold_along_wellformed_runs_witness :
    GoodSeq defaultState
      [Op.createPageTemplate (samplePageTemplate "pt1"),
        Op.createPageInstance (samplePage "p1" "pt1"),
        Op.removePageTemplate "pt1"] ∧
    Invariants (execOps defaultState
      ([Op.createPageTemplate (samplePageTemplate "pt1"),
        Op.createPageInstance (samplePage "p1" "pt1"),
        Op.removePageTemplate "pt1"].take 2)) :=
  ⟨by decide,
    invariants_hold_along_wellformed_runs
      [Op.createPageTemplate (samplePageTemplate "pt1"),
        Op.createPageInstance (samplePage "p1" "pt1"),
        Op.removePageTemplate "pt1"] 2 (by decide)⟩
